import Mathlib

/-!
Shallow embedding of the CRN stream subsystem and the dynamic agent store of
the `stisim` package (files `stisim/streams.py` and `stisim/base.py`).

Modelling conventions:
* The numpy `PCG64` bit generator is external library code; it is modelled as
  an abstract `PRNG` structure whose fields are the operations the source
  invokes on it (`seedState` for seeding, `jump` for one `jumped()` call,
  `word st i` for the `i`-th element of a uniform block drawn from state `st`,
  `next st n` for the generator state after drawing a uniform block of
  length `n`).  numpy fills a requested block sequentially, so the `i`-th
  element of `Generator.random(n)` is a function of the generator state and
  `i` alone; `blockDraw` reflects this.
* Python floats are modelled as `ℚ`; `np.log`/`np.sqrt` are passed in as
  abstract functions where the source applies them.
* Exceptions are modelled with `Except Err`; `Err` constructors are named
  after the exception classes the source raises.
-/

/-- Errors raised by the source.  `notInitialized`, `notReset` and
`seedRepeat` are the exception classes defined in `stisim/streams.py`;
`assertionError`, `typeError` and `notImplemented` are the Python built-ins
raised by `assert`, by a keyword-argument mismatch, and by the explicit
`raise NotImplementedError` in `Stream.sample`.  `alreadyBound` is modelled
from the spec: the spec names an `AlreadyBoundError` kind, but no code path
in the source constructs such an exception. -/
inductive Err where
  | notInitialized
  | notReset
  | seedRepeat
  | assertionError
  | typeError
  | notImplemented
  | alreadyBound
  deriving DecidableEq

/-- Abstract model of the numpy `PCG64`-backed `np.random.Generator`. -/
structure PRNG where
  /-- Generator state obtained from `np.random.PCG64(seed=seed)`. -/
  seedState : Int → Nat
  /-- State after one `bit_generator.jumped()` call. -/
  jump : Nat → Nat
  /-- `word st i`: element `i` of a uniform block drawn from state `st`.
  numpy fills the block sequentially, so this depends on `st` and `i` only. -/
  word : Nat → Nat → ℚ
  /-- State after drawing one uniform block of length `n` from state `st`. -/
  next : Nat → Nat → Nat
  /-- `poisVal lam st i`: element `i` of a Poisson(`lam`) block from `st`. -/
  poisVal : ℚ → Nat → Nat → ℚ
  /-- State after drawing a Poisson block of length `n` from state `st`. -/
  nextPois : ℚ → Nat → Nat → Nat

/-- `ti` successive jumps, as performed by `jumped(jumps=ti)`. -/
def PRNG.jumpN (p : PRNG) (ti : Nat) (st : Nat) : Nat :=
  match ti with
  | 0 => st
  | t + 1 => p.jump (p.jumpN t st)

/-- The full block `super().random(n)` drawn from state `st`:
numpy fills the `n` slots sequentially from the generator. -/
def blockDraw (p : PRNG) (st : Nat) (n : Nat) : List ℚ :=
  (List.range n).map (p.word st)

/-- numpy fancy indexing `vec[arr]` for an index array `arr`. -/
def select (vec : List ℚ) (arr : List Nat) : List ℚ :=
  arr.map (fun i => vec.getD i 0)

/-- numpy boolean-mask indexing `arr[mask]`. -/
def maskSelect : List Nat → List Bool → List Nat
  | [], _ => []
  | _ :: _, [] => []
  | a :: as, b :: bs => if b then a :: maskSelect as bs else maskSelect as bs

/-- Mutable state of one `Stream` (class `Stream` in `stisim/streams.py`).
The block-size object `bso` is the owning store; draw operations below take
the current block size `n = len(self.bso)` as an explicit argument. -/
structure RngStream where
  name : String
  seed_offset : Option Int
  seed : Option Int
  inited : Bool      -- source field `self.initialized`
  ready : Bool
  state : Nat        -- current `bit_generator.state`
  init_state : Nat   -- snapshot `self._init_state`
  deriving DecidableEq

/-- The registry `Streams`.  The source keeps the stream objects in an
`ndict`; only their `seed_offset` fields and the length of the collection
enter `add`, so `streams` records the registered offset requests in order. -/
structure Streams where
  streams : List (Option Int)
  used_seeds : List Int
  inited : Bool      -- source field `self.initialized`
  base_seed : Int
  deriving DecidableEq

/-- `Streams.initialize(base_seed)`. -/
def Streams.setup (base_seed : Int) : Streams :=
  { streams := [], used_seeds := [], inited := true, base_seed := base_seed }

/-- `Streams.add(stream)`: explicit offsets are checked against
`used_seeds`; an absent offset is auto-assigned as `len(self._streams)`
without any collision check.  Returns the absolute seed `base_seed + seed`. -/
def Streams.add (R : Streams) (offReq : Option Int) : Except Err (Streams × Int) :=
  if ¬ R.inited then
    .error .notInitialized
  else
    match offReq with
    | none =>
        let seed : Int := R.streams.length
        .ok ({ R with used_seeds := R.used_seeds ++ [seed],
                      streams := R.streams ++ [offReq] }, R.base_seed + seed)
    | some off =>
        if off ∈ R.used_seeds then
          .error .seedRepeat
        else
          .ok ({ R with used_seeds := R.used_seeds ++ [off],
                        streams := R.streams ++ [offReq] }, R.base_seed + off)

/-- A sequence of `add` calls, collecting each stream's absolute seed. -/
def Streams.addAll (R : Streams) : List (Option Int) → Except Err (Streams × List Int)
  | [] => .ok (R, [])
  | r :: rest =>
    match R.add r with
    | .error e => .error e
    | .ok (R1, s) =>
      match R1.addAll rest with
      | .error e => .error e
      | .ok (R2, ss) => .ok (R2, s :: ss)

/-- `Stream.initialize(streams, block_size_object)`.  On an already
initialized stream the source executes `assert not self.initialized`, which
fails, raising `AssertionError`.  Otherwise it obtains its absolute seed
from the registry, seeds a fresh `PCG64`, snapshots the post-seed state and
sets `ready`. -/
def RngStream.bindTo (p : PRNG) (s : RngStream) (R : Streams) :
    Except Err (RngStream × Streams) :=
  if s.inited then
    .error .assertionError
  else
    match R.add s.seed_offset with
    | .error e => .error e
    | .ok (R1, seed) =>
        .ok ({ s with seed := some seed,
                      state := p.seedState seed,
                      init_state := p.seedState seed,
                      inited := true,
                      ready := true }, R1)

/-- `Stream.reset`: restore the captured initial state, set `ready`. -/
def RngStream.reset (s : RngStream) : RngStream :=
  { s with state := s.init_state, ready := true }

/-- `Stream.step(ti)`: reset to the initial state, then take `ti` jumps. -/
def RngStream.step (p : PRNG) (s : RngStream) (ti : Nat) : RngStream :=
  let s1 := s.reset
  { s1 with state := p.jumpN ti s1.state }

/-- `Stream.random(arr)` — the only draw primitive wrapped by `_pre_draw`:
it rejects an uninitialized or not-ready stream, clears `ready`, draws the
full block `super().random(self.block_size)` and returns `[arr]` of it.
`n` is the current block size `len(self.bso)`. -/
def RngStream.random (p : PRNG) (s : RngStream) (n : Nat) (arr : List Nat) :
    Except Err (List ℚ × RngStream) :=
  if ¬ s.inited then
    .error .notInitialized
  else if ¬ s.ready then
    .error .notReset
  else
    .ok (select (blockDraw p s.state n) arr,
         { s with ready := false, state := p.next s.state n })

/-- `Stream.poisson(lam, arr)` — not decorated by `_pre_draw`: no readiness
check, no change to `ready`. -/
def RngStream.poisson (p : PRNG) (s : RngStream) (n : Nat) (lam : ℚ)
    (arr : List Nat) : List ℚ × RngStream :=
  (arr.map (fun i => ((List.range n).map (p.poisVal lam s.state)).getD i 0),
   { s with state := p.nextPois lam s.state n })

/-- `Stream.bernoulli(prob, arr)` — not decorated by `_pre_draw`:
`super().random(self.block_size)[arr] < prob`. -/
def RngStream.bernoulli (p : PRNG) (s : RngStream) (n : Nat) (prob : ℚ)
    (arr : List Nat) : List Bool × RngStream :=
  ((select (blockDraw p s.state n) arr).map (fun x => decide (x < prob)),
   { s with state := p.next s.state n })

/-- `Stream.bernoulli_filter(prob, arr)`: `arr[self.bernoulli(prob, arr)]`. -/
def RngStream.bernoulli_filter (p : PRNG) (s : RngStream) (n : Nat) (prob : ℚ)
    (arr : List Nat) : List Nat × RngStream :=
  let mb := s.bernoulli p n prob arr
  (maskSelect arr mb.1, mb.2)

/-! ## `Stream.sample` -/

/-- Symbolic description of the numpy sampling call a successful
`Stream.sample` dispatch performs (the variates themselves are produced by
numpy's distribution library, which is external code). -/
inductive SampleVal where
  | uniformV (low high : ℚ) (size : Nat)
  | choiceV (par1 par2 : ℚ) (size : Nat)   -- `par1`/`par2` are opaque here
  | normalV (loc scale : ℚ) (size : Nat)
  | lognormalV (mu sigma : ℚ) (size : Nat)
  | betaV (a b : ℚ) (size : Nat)
  | gammaV (shape scale : ℚ) (size : Nat)
  | zerosV (size : Nat)                    -- `np.zeros(size)`
  | absV (v : SampleVal)                   -- `np.abs(...)` applied on top
  | roundV (v : SampleVal)                 -- `np.round(...)` applied on top
  deriving DecidableEq

/-- `some n` iff the value is a length-`n` vector of zeros
(`np.abs`/`np.round` of zeros is zeros). -/
def SampleVal.denotesZeros : SampleVal → Option Nat
  | .zerosV n => some n
  | .absV v => v.denotesZeros
  | .roundV v => v.denotesZeros
  | _ => none

/-- `Stream.sample(dist, par1, par2, size)` from `stisim/streams.py`.
`np_log`/`np_sqrt` stand for `np.log`/`np.sqrt`.  The branch structure is
the source's `if`/`elif` chain.  Notes tied to the source:
* the `'poisson'` branch executes `self.poisson(rate=par1, n=size)`, but
  `Stream.poisson` overrides the numpy method with signature
  `(self, lam, arr)`, which accepts neither keyword, so the call raises
  `TypeError`;
* `'neg_binomial'` appears in the documented `choices` list but has no
  branch, so it falls to the final `raise NotImplementedError`;
* inside the lognormal branch, the source tests `'_int' in dist`, which on
  the four strings admitted by that branch holds exactly for
  `'lognorm_int'` and `'lognormal_int'`.
Generator-state advancement of the underlying numpy calls is not modelled;
no claim refers to it. -/
def RngStream.sample (np_log np_sqrt : ℚ → ℚ) (dist : String)
    (par1 par2 : ℚ) (size : Nat) : Except Err SampleVal :=
  if dist = "unif" ∨ dist = "uniform" then
    .ok (.uniformV par1 par2 size)
  else if dist = "choice" then
    .ok (.choiceV par1 par2 size)
  else if dist = "norm" ∨ dist = "normal" then
    .ok (.normalV par1 par2 size)
  else if dist = "normal_pos" then
    .ok (.absV (.normalV par1 par2 size))
  else if dist = "normal_int" then
    .ok (.roundV (.absV (.normalV par1 par2 size)))
  else if dist = "poisson" then
    .error .typeError
  else if dist = "beta" then
    .ok (.betaV par1 par2 size)
  else if dist = "gamma" then
    .ok (.gammaV par1 par2 size)
  else if dist = "lognorm" ∨ dist = "lognormal" ∨
          dist = "lognorm_int" ∨ dist = "lognormal_int" then
    let samples : SampleVal :=
      if 0 < par1 then
        .lognormalV (np_log (par1 ^ 2 / np_sqrt (par2 ^ 2 + par1 ^ 2)))
                    (np_sqrt (np_log (par2 ^ 2 / par1 ^ 2 + 1))) size
      else
        .zerosV size
    if dist = "lognorm_int" ∨ dist = "lognormal_int" then
      .ok (.roundV samples)
    else
      .ok samples
  else if dist = "beta_mean" then
    .ok (.betaV (((1 - par1) / par2 - 1 / par1) * par1 ^ 2)
                ((((1 - par1) / par2 - 1 / par1) * par1 ^ 2) * (1 / par1 - 1))
                size)
  else
    .error .notImplemented

/-! ## `BasePeople` (the agent store, `stisim/base.py`) -/

/-- A column specification — class `State` in `stisim/base.py` (1-D case;
`shape` is `None` for all the base states). -/
structure ColSpec where
  name : String
  fill_value : Int
  deriving DecidableEq

/-- `State.new(n)`: `np.full(n, fill_value=self.fill_value)`. -/
def ColSpec.new (st : ColSpec) (n : Nat) : List Int :=
  List.replicate n st.fill_value

/-- The agent store `BasePeople`: per-column specification plus backing
array (`self._data[name]`, allocated length `_s`), logical size `_n`.
Python ints may go negative, so `_n` and `_s` are `Int`. -/
structure BasePeople where
  states : List ColSpec
  data : List (List Int)   -- parallel to `states`
  _n : Int
  _s : Int
  deriving DecidableEq

/-- `BasePeople.__init__(n, states)`: allocate each column as
`state.new(n)`, then `self['uid'][:] = np.arange(n)`. -/
def BasePeople.create (n : Nat) (states : List ColSpec) : BasePeople :=
  { states := states
    data := states.map (fun st =>
      if st.name = "uid" then (List.range n).map Int.ofNat else st.new n)
    _n := n
    _s := n }

/-- `np.arange(a, b)` over Python ints. -/
def intRange (a b : Int) : List Int :=
  (List.range (b - a).toNat).map (fun i => a + i)

/-- `BasePeople._grow(n)` (here the count is `k`): if `_n + k` exceeds the
allocation `_s`, extend every column by `n_new = max(k, int(_s / 2))`
entries of its fill value and add `n_new` to `_s`; then add `k` to `_n` and
return `np.arange(orig_n, self._n)`.  No validation of `k` is performed. -/
def BasePeople.grow (P : BasePeople) (k : Int) : BasePeople × List Int :=
  let origN := P._n
  let newTotal := origN + k
  let P1 :=
    if P._s < newTotal then
      let nNew := max k (P._s / 2)
      { P with
        data := (P.states.zip P.data).map
          (fun sd => sd.2 ++ sd.1.new nNew.toNat)
        _s := P._s + nNew }
    else P
  let P2 := { P1 with _n := P1._n + k }
  (P2, intRange origN P2._n)

/-! ## Concrete fixtures used to instantiate theorems with hypotheses -/

/-- A concrete instance of the abstract generator interface, used only to
evaluate the verified statements on explicit inputs. -/
def demoPRNG : PRNG :=
  { seedState := fun z => z.toNat
    jump := fun st => st + 1
    word := fun st i => mkRat (st + i) 1
    next := fun st n => st + 100 + n
    poisVal := fun lam st i => lam + mkRat (st + i) 1
    nextPois := fun _ st n => st + 200 + n }

/-- A Bound, ready stream. -/
def demoStream : RngStream :=
  { name := "demo", seed_offset := none, seed := some 42,
    inited := true, ready := true, state := 10, init_state := 7 }

/-- A Bound stream that has already produced its draw this timestep. -/
def demoStreamNR : RngStream :=
  { demoStream with ready := false }

/-- An Unbound stream with an explicit seed-offset request. -/
def demoUnbound : RngStream :=
  { name := "fresh", seed_offset := some 1, seed := none,
    inited := false, ready := true, state := 0, init_state := 0 }

/-- A freshly initialized registry with base seed 0. -/
def demoReg : Streams := Streams.setup 0

/-! ## Helper lemmas -/

lemma blockDraw_getD (p : PRNG) (st : Nat) {n i : Nat} (h : i < n) :
    (blockDraw p st n).getD i 0 = p.word st i := by
  simp [blockDraw, List.getD_eq_getElem?_getD, List.getElem?_map,
        List.getElem?_range, h]

lemma select_getD (vec : List ℚ) (arr : List Nat) {j : Nat}
    (hj : j < arr.length) :
    (select vec arr).getD j 0 = vec.getD (arr.getD j 0) 0 := by
  simp [select, List.getD_eq_getElem?_getD, List.getElem?_map,
        List.getElem?_eq_getElem hj]

lemma maskSelect_map_eq_filter (l : List Nat) (f : Nat → Bool) :
    maskSelect l (l.map f) = l.filter f := by
  induction l with
  | nil => rfl
  | cons a as ih =>
    by_cases h : f a <;> simp [maskSelect, List.filter_cons, h, ih]

lemma maskSelect_sublist (l : List Nat) (m : List Bool) :
    (maskSelect l m).Sublist l := by
  induction l generalizing m with
  | nil => simp [maskSelect]
  | cons a as ih =>
    cases m with
    | nil => simp [maskSelect]
    | cons b bs =>
      by_cases h : b
      · simpa [maskSelect, h] using (ih bs).cons₂ a
      · simpa [maskSelect, h] using (ih bs).cons a

/-! ## Claim theorems -/

/-- C6: `step(t); reset(); step(t)` leaves the stream exactly as a single
`step(t)` does; the state after `step(t)` is the initial state advanced by
exactly `t` jumps; and `step(t)` is insensitive to whatever the current
generator state and ready flag are (all any draw can change), so its
outcome depends only on `t` and the captured initial state. -/
theorem step_reset_step (p : PRNG) (s : RngStream) (t : Nat)
    (st' : Nat) (rd' : Bool) :
    (((s.step p t).reset).step p t = s.step p t) ∧
    ((s.step p t).state = p.jumpN t s.init_state) ∧
    (({ s with state := st', ready := rd' } : RngStream).step p t
      = s.step p t) := by
  refine ⟨rfl, rfl, rfl⟩

/-- C1: on a Bound, ready stream with block size `n`, `random` called with
index array `A` and `random` called from the same state with index array
`B` agree at every common index `i < n`: both return `p.word s.state i`
there — element `i` of the full block depends only on the generator state
and the block, never on which indices were requested. -/
theorem random_index_independence (p : PRNG) (s : RngStream) (n : Nat)
    (A B : List Nat) (i j1 j2 : Nat)
    (hi : s.inited = true) (hr : s.ready = true) (hin : i < n)
    (hj1 : j1 < A.length) (hj2 : j2 < B.length)
    (hA : A.getD j1 0 = i) (hB : B.getD j2 0 = i)
    (vA vB : List ℚ) (sA sB : RngStream)
    (hvA : s.random p n A = .ok (vA, sA))
    (hvB : s.random p n B = .ok (vB, sB)) :
    vA.getD j1 0 = p.word s.state i ∧ vB.getD j2 0 = p.word s.state i := by
  simp [RngStream.random, hi, hr] at hvA hvB
  constructor
  · rw [← hvA.1, select_getD _ _ hj1, hA, blockDraw_getD p s.state hin]
  · rw [← hvB.1, select_getD _ _ hj2, hB, blockDraw_getD p s.state hin]

/-- Witness for C1: block size 5, overlapping index arrays `[0,1,2]` and
`[0,1,2,3,4]`, common index 1 at position 1 of each. -/
theorem random_index_independence_witness :
    ((1 : Nat) < 5) ∧
    ((select (blockDraw demoPRNG 10 5) [0, 1, 2]).getD 1 0
        = demoPRNG.word 10 1 ∧
     (select (blockDraw demoPRNG 10 5) [0, 1, 2, 3, 4]).getD 1 0
        = demoPRNG.word 10 1) :=
  ⟨by decide,
   random_index_independence demoPRNG demoStream 5 [0, 1, 2] [0, 1, 2, 3, 4]
     1 1 1 rfl rfl (by decide) (by decide) (by decide) (by decide) (by decide)
     (select (blockDraw demoPRNG 10 5) [0, 1, 2])
     (select (blockDraw demoPRNG 10 5) [0, 1, 2, 3, 4])
     { demoStream with ready := false, state := demoPRNG.next 10 5 }
     { demoStream with ready := false, state := demoPRNG.next 10 5 }
     rfl rfl⟩

/-- C10: on a Bound stream, `bernoulli_filter(prob, arr)` is exactly
`arr[mask]` for the mask `bernoulli(prob, arr)` would produce from the same
generator state; equivalently it is the order-preserving subsequence of
`arr` keeping precisely the indices whose full-block draw is below `prob`;
and it consumes exactly one full-block uniform draw, ending in the same
stream state as `bernoulli`. -/
theorem bernoulli_filter_spec (p : PRNG) (s : RngStream) (n : Nat)
    (prob : ℚ) (arr : List Nat) (_hi : s.inited = true) :
    (s.bernoulli_filter p n prob arr).1
        = maskSelect arr (s.bernoulli p n prob arr).1 ∧
    (s.bernoulli_filter p n prob arr).1
        = arr.filter (fun i => decide ((blockDraw p s.state n).getD i 0 < prob)) ∧
    ((s.bernoulli_filter p n prob arr).1).Sublist arr ∧
    (s.bernoulli_filter p n prob arr).2 = (s.bernoulli p n prob arr).2 ∧
    (s.bernoulli p n prob arr).2 = { s with state := p.next s.state n } := by
  refine ⟨rfl, ?_, ?_, rfl, rfl⟩
  · show maskSelect arr (s.bernoulli p n prob arr).1 = _
    rw [show (s.bernoulli p n prob arr).1
          = arr.map (fun i => decide ((blockDraw p s.state n).getD i 0 < prob)) by
        simp [RngStream.bernoulli, select, List.map_map]]
    exact maskSelect_map_eq_filter arr _
  · exact maskSelect_sublist arr _

/-- Witness for C10: block `[10,11,12]` at threshold `23/2` keeps index 0
and drops index 2. -/
theorem bernoulli_filter_spec_witness :
    demoStream.inited = true ∧
    (demoStream.bernoulli_filter demoPRNG 3 (mkRat 23 2) [0, 2]).1
      = [0, 2].filter
          (fun i => decide ((blockDraw demoPRNG 10 3).getD i 0 < mkRat 23 2)) :=
  ⟨rfl, (bernoulli_filter_spec demoPRNG demoStream 3 (mkRat 23 2) [0, 2] rfl).2.1⟩

/-- C3 counterexample: on a stream whose `ready` flag is false,
`bernoulli` does not raise — it still produces a draw — and on a ready
stream `bernoulli`, `poisson` and `bernoulli_filter` all leave `ready`
true, contradicting ".. raises NotReadyError when the ready flag is false
and sets ready to false after producing its draw" for those primitives. -/
theorem ready_guard_cex :
    (demoStreamNR.bernoulli demoPRNG 3 (mkRat 1 2) [0, 1]).1 = [false, false] ∧
    (demoStream.bernoulli demoPRNG 3 (mkRat 1 2) [0, 1]).2.ready = true ∧
    (demoStream.poisson demoPRNG 3 2 [0]).2.ready = true ∧
    (demoStream.bernoulli_filter demoPRNG 3 (mkRat 1 2) [0, 1]).2.ready = true := by
  refine ⟨by decide, rfl, rfl, rfl⟩

/-- C3 amended: only `random` is wrapped by `_pre_draw`: it raises
NotReadyError (`NotResetException`) when `ready` is false, clears `ready`
on success, and therefore raises on the second of two back-to-back
`random` calls; `poisson`, `bernoulli` and `bernoulli_filter` neither
check nor change the `ready` flag and always produce a draw. -/
theorem ready_guard_amended (p : PRNG) (s : RngStream) (n : Nat)
    (prob lam : ℚ) (arr arr2 : List Nat) :
    (s.inited = true → s.ready = false → s.random p n arr = .error .notReset) ∧
    (s.inited = true → s.ready = true →
      s.random p n arr = .ok (select (blockDraw p s.state n) arr,
        { s with ready := false, state := p.next s.state n })) ∧
    ((s.bernoulli p n prob arr).2.ready = s.ready) ∧
    ((s.poisson p n lam arr).2.ready = s.ready) ∧
    ((s.bernoulli_filter p n prob arr).2.ready = s.ready) ∧
    (∀ v s', s.random p n arr = .ok (v, s') →
      s'.random p n arr2 = .error .notReset) := by
  refine ⟨fun hi hr => by simp [RngStream.random, hi, hr],
          fun hi hr => by simp [RngStream.random, hi, hr],
          rfl, rfl, rfl, ?_⟩
  intro v s' h
  by_cases hi : s.inited = true
  · by_cases hr : s.ready = true
    · simp [RngStream.random, hi, hr] at h
      rw [← h.2]
      simp [RngStream.random, hi]
    · simp [RngStream.random, hi, hr] at h
  · simp [RngStream.random, hi] at h

/-- Witness for C3's amended theorem: the not-ready stream errors on
`random`, and `bernoulli` keeps the ready flag. -/
theorem ready_guard_amended_witness :
    demoStreamNR.random demoPRNG 3 [0] = .error .notReset ∧
    (demoStream.bernoulli demoPRNG 3 (mkRat 1 2) [0]).2.ready = demoStream.ready :=
  ⟨(ready_guard_amended demoPRNG demoStreamNR 3 (mkRat 1 2) 2 [0] [0]).1 rfl rfl,
   (ready_guard_amended demoPRNG demoStream 3 (mkRat 1 2) 2 [0] [0]).2.2.1⟩

/-- C9 counterexample: a second bind on a Bound stream fails via the
source's `assert not self.initialized` — i.e. with `AssertionError` — not
with a dedicated AlreadyBound error kind. -/
theorem double_bind_cex :
    demoUnbound.bindTo demoPRNG demoReg =
      .ok ({ name := "fresh", seed_offset := some 1, seed := some 1,
             inited := true, ready := true, state := 1, init_state := 1 },
           { streams := [some 1], used_seeds := [1], inited := true,
             base_seed := 0 }) ∧
    RngStream.bindTo demoPRNG
      { name := "fresh", seed_offset := some 1, seed := some 1,
        inited := true, ready := true, state := 1, init_state := 1 }
      { streams := [some 1], used_seeds := [1], inited := true,
        base_seed := 0 } = .error .assertionError ∧
    Err.assertionError ≠ Err.alreadyBound :=
  ⟨rfl, rfl, by decide⟩

/-- C9 amended: bind completes successfully at most once — a second bind
call on an already-Bound stream fails — but the failure is the generic
`AssertionError` from `assert not self.initialized`, not a dedicated
AlreadyBoundError kind. -/
theorem bind_once_amended (p : PRNG) (s : RngStream) (R R2 : Streams) :
    (s.inited = true → s.bindTo p R = .error .assertionError) ∧
    (∀ s' R', s.bindTo p R = .ok (s', R') →
      s'.bindTo p R2 = .error .assertionError) := by
  constructor
  · intro hi
    simp [RngStream.bindTo, hi]
  · intro s' R' h
    by_cases hi : s.inited = true
    · simp [RngStream.bindTo, hi] at h
    · rcases hadd : R.add s.seed_offset with e | ⟨R1, seed⟩ <;>
        simp [RngStream.bindTo, hi, hadd] at h
      rw [← h.1]
      simp [RngStream.bindTo]

/-- Witness for C9's amended theorem: the concrete stream of
`double_bind_cex`, bound once, rejects a second bind. -/
theorem bind_once_amended_witness :
    RngStream.bindTo demoPRNG
      { name := "fresh", seed_offset := some 1, seed := some 1,
        inited := true, ready := true, state := 1, init_state := 1 }
      demoReg = .error .assertionError ∧
    RngStream.bindTo demoPRNG
      { name := "fresh", seed_offset := some 1, seed := some 1,
        inited := true, ready := true, state := 1, init_state := 1 }
      { streams := [some 1], used_seeds := [1], inited := true,
        base_seed := 0 } = .error .assertionError :=
  ⟨(bind_once_amended demoPRNG
      { name := "fresh", seed_offset := some 1, seed := some 1,
        inited := true, ready := true, state := 1, init_state := 1 }
      demoReg demoReg).1 rfl,
   (bind_once_amended demoPRNG demoUnbound demoReg
      { streams := [some 1], used_seeds := [1], inited := true,
        base_seed := 0 }).2
     { name := "fresh", seed_offset := some 1, seed := some 1,
       inited := true, ready := true, state := 1, init_state := 1 }
     { streams := [some 1], used_seeds := [1], inited := true,
       base_seed := 0 } rfl⟩

/-- Registering `m` offset-free streams assigns the absolute seeds
`base_seed + count, base_seed + count + 1, …` (`count` = streams already
registered): `add` auto-assigns `len(self._streams)` unconditionally. -/
lemma addAll_replicate_none (m : Nat) (R : Streams) (h : R.inited = true) :
    ∃ R', R.addAll (List.replicate m none)
      = .ok (R', (List.range m).map
          (fun i : Nat => R.base_seed + (R.streams.length : Int) + (i : Int))) := by
  induction m generalizing R with
  | zero => exact ⟨R, rfl⟩
  | succ m ih =>
    have hadd : R.add none =
        .ok ({ streams := R.streams ++ [none],
               used_seeds := R.used_seeds ++ [(R.streams.length : Int)],
               inited := R.inited, base_seed := R.base_seed },
             R.base_seed + (R.streams.length : Int)) := by
      simp [Streams.add, h]
    obtain ⟨R', hR'⟩ := ih
      { streams := R.streams ++ [none],
        used_seeds := R.used_seeds ++ [(R.streams.length : Int)],
        inited := R.inited, base_seed := R.base_seed } (by simpa using h)
    refine ⟨R', ?_⟩
    rw [List.replicate_succ]
    simp only [Streams.addAll]
    simp only [hadd, hR']
    simp only [List.length_append, List.length_cons, List.length_nil,
               List.range_succ_eq_map, List.map_cons, List.map_map,
               Nat.cast_zero, add_zero]
    refine congrArg _ (congrArg _ (congrArg _ ?_))
    refine List.map_congr_left (fun i _ => ?_)
    simp only [Function.comp]
    push_cast
    ring

/-- C2 counterexample: on a fresh registry with base seed 0, registering a
stream with explicit offset 1 and then a stream with no explicit offset
succeeds and hands both streams the same absolute seed `0 + 1`: the
auto-assigned offset (the stream count) is never checked against
`used_seeds`. -/
theorem seed_collision_cex :
    demoReg.addAll [some 1, none] =
      .ok ({ streams := [some 1, none], used_seeds := [1, 1],
             inited := true, base_seed := 0 }, [1, 1]) ∧
    ¬ ([1, 1] : List Int).Nodup := by
  exact ⟨rfl, by decide⟩

/-- C2 amended: seed uniqueness holds within each registration mode — the
`m` auto-assigned offsets are the pairwise-distinct stream counts
`0, 1, …, m-1`, and an explicit offset already in `used_seeds` is rejected
with SeedCollisionError (`SeedRepeatException`) — but an auto-assigned
offset is not checked against previously used explicit offsets, so a
mixed sequence can produce a collision (see `seed_collision_cex`). -/
theorem seed_uniqueness_amended (base : Int) (m : Nat) (R : Streams)
    (off : Int) (hR : R.inited = true) :
    (∃ R', (Streams.setup base).addAll (List.replicate m none)
        = .ok (R', (List.range m).map (fun i : Nat => base + (i : Int))) ∧
      ((List.range m).map (fun i : Nat => base + (i : Int))).Nodup) ∧
    (off ∈ R.used_seeds → R.add (some off) = .error .seedRepeat) := by
  constructor
  · obtain ⟨R', hR'⟩ := addAll_replicate_none m (Streams.setup base) rfl
    refine ⟨R', ?_, ?_⟩
    · simpa [Streams.setup] using hR'
    · refine List.Nodup.map ?_ (List.nodup_range m)
      intro i j hij
      have hij' : base + (i : Int) = base + (j : Int) := hij
      omega
  · intro hmem
    simp [Streams.add, hR, hmem]

/-- Witness for C2's amended theorem: three auto-registrations from base
seed 0 give distinct seeds `[0, 1, 2]`, and re-requesting the used
explicit offset 1 is rejected. -/
theorem seed_uniqueness_amended_witness :
    Streams.add { streams := [some 1], used_seeds := [1], inited := true,
                  base_seed := 0 } (some 1) = .error .seedRepeat :=
  (seed_uniqueness_amended 0 3
    { streams := [some 1], used_seeds := [1], inited := true, base_seed := 0 }
    1 rfl).2 (by decide)

/-- Reallocating every column (appending `c` fill entries) preserves each
column's first `n` rows, position by position. -/
lemma realloc_take_pointwise (states : List ColSpec) (data : List (List Int))
    (c n : Nat) (hsd : states.length = data.length)
    (hn : ∀ d ∈ data, n ≤ d.length) (j : Nat) :
    (((states.zip data).map (fun sd => sd.2 ++ sd.1.new c))[j]?.map
        (List.take n))
      = data[j]?.map (List.take n) := by
  induction states generalizing data j with
  | nil =>
    cases data with
    | nil => simp
    | cons d ds => simp at hsd
  | cons sp sps ih =>
    cases data with
    | nil => simp at hsd
    | cons d ds =>
      cases j with
      | zero =>
        simp only [List.zip_cons_cons, List.map_cons, List.getElem?_cons_zero,
                   Option.map_some]
        exact congrArg some
          (List.take_append_of_le_length (hn d (List.mem_cons_self d ds)))
      | succ j =>
        simp only [List.zip_cons_cons, List.map_cons, List.getElem?_cons_succ]
        exact ih ds (by simpa using hsd)
          (fun d' hd' => hn d' (List.mem_cons_of_mem _ hd')) j

/-- C5: for a store whose columns all have allocated length `_s` and with
`_n ≤ _s`, `grow k` (`k ≥ 0`): adds exactly `k` to the logical size;
returns the new UIDs `[_n, …, _n + k - 1]` as a sequence; leaves the first
`_n` rows of every column unchanged; when `_n + k` exceeds the capacity it
reallocates every column to capacity `max(_s + k, _s + _s/2)`, and
otherwise keeps the existing allocation. -/
theorem grow_spec (P : BasePeople) (k : Int) (hk : 0 ≤ k)
    (hsd : P.states.length = P.data.length) (hns : P._n ≤ P._s)
    (hlen : ∀ d ∈ P.data, (d.length : Int) = P._s) :
    (P.grow k).1._n = P._n + k ∧
    (P.grow k).2 = intRange P._n (P._n + k) ∧
    (∀ j : Nat, ((P.grow k).1.data[j]?.map (List.take P._n.toNat))
        = P.data[j]?.map (List.take P._n.toNat)) ∧
    (P._s < P._n + k →
      (P.grow k).1._s = max (P._s + k) (P._s + P._s / 2) ∧
      ∀ d ∈ (P.grow k).1.data, (d.length : Int) = (P.grow k).1._s) ∧
    (P._n + k ≤ P._s →
      (P.grow k).1._s = P._s ∧ (P.grow k).1.data = P.data) := by
  by_cases h : P._s < P._n + k
  · refine ⟨by simp [BasePeople.grow, h], by simp [BasePeople.grow, h],
            ?_, fun _ => ⟨?_, ?_⟩, fun hc => absurd h (not_lt.mpr hc)⟩
    · intro j
      have hgrow : (P.grow k).1.data
          = (P.states.zip P.data).map
              (fun sd => sd.2 ++ sd.1.new (max k (P._s / 2)).toNat) := by
        simp [BasePeople.grow, h]
      rw [hgrow]
      refine realloc_take_pointwise P.states P.data _ _ hsd (fun d hd => ?_) j
      have := hlen d hd
      rw [Int.toNat_le]
      omega
    · have : (P.grow k).1._s = P._s + max k (P._s / 2) := by
        simp [BasePeople.grow, h]
      rw [this, max_add_add_left]
    · intro d hd
      have hgrow : (P.grow k).1.data
          = (P.states.zip P.data).map
              (fun sd => sd.2 ++ sd.1.new (max k (P._s / 2)).toNat) := by
        simp [BasePeople.grow, h]
      have hs' : (P.grow k).1._s = P._s + max k (P._s / 2) := by
        simp [BasePeople.grow, h]
      rw [hgrow] at hd
      obtain ⟨⟨sp, dd⟩, hmem, rfl⟩ := List.mem_map.mp hd
      have hdd : dd ∈ P.data := (List.of_mem_zip hmem).2
      have hddlen := hlen dd hdd
      have hmax : (0 : Int) ≤ max k (P._s / 2) := le_trans hk (le_max_left _ _)
      rw [hs']
      simp only [ColSpec.new, List.length_append, List.length_replicate]
      push_cast
      rw [Int.toNat_of_nonneg hmax]
      omega
  · have hc := not_lt.mp h
    refine ⟨by simp [BasePeople.grow, h], by simp [BasePeople.grow, h],
            fun j => by simp [BasePeople.grow, h],
            fun hlt => absurd hlt h,
            fun _ => ⟨by simp [BasePeople.grow, h], by simp [BasePeople.grow, h]⟩⟩

/-- Witness for C5, the spec's own example: `create(10, cols); grow(2)`
reallocates capacity 10 to `max(12, 15) = 15` and returns the new UIDs
`[10, 11]`. -/
theorem grow_spec_witness :
    ((BasePeople.create 10 [⟨"uid", 0⟩, ⟨"age", 0⟩]).grow 2).1._n = 10 + 2 ∧
    ((BasePeople.create 10 [⟨"uid", 0⟩, ⟨"age", 0⟩]).grow 2).2
      = intRange 10 (10 + 2) ∧
    ((BasePeople.create 10 [⟨"uid", 0⟩, ⟨"age", 0⟩]).grow 2).1._s
      = max ((10 : Int) + 2) (10 + 10 / 2) ∧
    intRange 10 (10 + 2) = [10, 11] ∧
    max ((10 : Int) + 2) (10 + 10 / 2) = 15 := by
  have hmain := grow_spec (BasePeople.create 10 [⟨"uid", 0⟩, ⟨"age", 0⟩]) 2
    (by decide) (by decide) (by decide) (by decide)
  exact ⟨hmain.1, hmain.2.1, (hmain.2.2.2.1 (by decide)).1, by decide, by decide⟩

/-- C7 counterexample: `grow(-1)` on a store of logical size 3 raises no
error at all — it silently decreases the logical size to 2 and returns an
empty UID sequence, contradicting "fails with an InvalidArgument-kind
error (and does not change the store's logical size)". -/
theorem grow_negative_cex :
    (BasePeople.create 3 [⟨"uid", 0⟩]).grow (-1)
      = ({ states := [⟨"uid", 0⟩], data := [[0, 1, 2]], _n := 2, _s := 3 },
         []) := by
  decide

/-- C7 amended: `grow` performs no validation of `k`: for negative `k` it
does not fail — it leaves every column and the capacity untouched, adds
`k` to the logical size (decreasing it), and returns an empty UID
sequence. -/
theorem grow_negative_amended (P : BasePeople) (k : Int) (hk : k < 0)
    (hns : P._n ≤ P._s) :
    P.grow k = ({ P with _n := P._n + k }, []) := by
  have hc : ¬ (P._s < P._n + k) := by omega
  simp only [BasePeople.grow, hc, if_false, intRange, add_sub_cancel_left,
             Int.toNat_of_nonpos (le_of_lt hk), List.range_zero, List.map_nil]
  simp

/-- Witness for C7's amended theorem at the concrete store of
`grow_negative_cex`. -/
theorem grow_negative_amended_witness :
    (BasePeople.create 3 [⟨"uid", 0⟩]).grow (-1)
      = ({ BasePeople.create 3 [⟨"uid", 0⟩] with
            _n := (BasePeople.create 3 [⟨"uid", 0⟩])._n + (-1) }, []) :=
  grow_negative_amended (BasePeople.create 3 [⟨"uid", 0⟩]) (-1)
    (by decide) (by decide)

/-- C4: `Stream.sample` succeeds for nine of the eleven documented kinds,
but its own documented `'poisson'` kind raises `TypeError` — the branch
calls `self.poisson(rate=par1, n=size)` while `Stream.poisson` overrides
the numpy method with signature `(self, lam, arr)`, which accepts neither
keyword — and its documented `'neg_binomial'` kind has no dispatch branch
at all, falling through to `raise NotImplementedError` whose own message
lists `neg_binomial` among the available choices. -/
theorem sample_dispatch_bug :
    RngStream.sample id id "poisson" 5 0 3 = .error .typeError ∧
    RngStream.sample id id "neg_binomial" 4 2 3 = .error .notImplemented ∧
    RngStream.sample id id "uniform" 0 1 3 = .ok (.uniformV 0 1 3) ∧
    RngStream.sample id id "choice" 1 1 3 = .ok (.choiceV 1 1 3) ∧
    RngStream.sample id id "normal" 3 1 3 = .ok (.normalV 3 1 3) ∧
    RngStream.sample id id "normal_pos" 3 1 3
      = .ok (.absV (.normalV 3 1 3)) ∧
    RngStream.sample id id "normal_int" 3 1 3
      = .ok (.roundV (.absV (.normalV 3 1 3))) ∧
    RngStream.sample id id "beta" 2 2 3 = .ok (.betaV 2 2 3) ∧
    RngStream.sample id id "gamma" 2 2 3 = .ok (.gammaV 2 2 3) :=
  ⟨rfl, rfl, rfl, rfl, rfl, rfl, rfl, rfl, rfl⟩

/-- C8: for the `lognormal`/`lognormal_int` kinds with desired lognormal
mean `m` and std `sd`: when `m > 0` the underlying normal is parameterized
with `μ = log(m²/√(sd²+m²))` and `σ = √(log(sd²/m²+1))`; when `m ≤ 0` the
call succeeds and returns a zero vector of the requested size (the `_int`
variant rounds it, which leaves it a zero vector). -/
theorem lognormal_param_spec (np_log np_sqrt : ℚ → ℚ) (m sd : ℚ)
    (size : Nat) :
    (0 < m →
      RngStream.sample np_log np_sqrt "lognormal" m sd size
        = .ok (.lognormalV (np_log (m ^ 2 / np_sqrt (sd ^ 2 + m ^ 2)))
                           (np_sqrt (np_log (sd ^ 2 / m ^ 2 + 1))) size) ∧
      RngStream.sample np_log np_sqrt "lognormal_int" m sd size
        = .ok (.roundV
            (.lognormalV (np_log (m ^ 2 / np_sqrt (sd ^ 2 + m ^ 2)))
                         (np_sqrt (np_log (sd ^ 2 / m ^ 2 + 1))) size))) ∧
    (m ≤ 0 →
      RngStream.sample np_log np_sqrt "lognormal" m sd size
        = .ok (.zerosV size) ∧
      RngStream.sample np_log np_sqrt "lognormal_int" m sd size
        = .ok (.roundV (.zerosV size)) ∧
      (SampleVal.roundV (.zerosV size)).denotesZeros = some size) := by
  constructor
  · intro hm
    constructor <;> simp [RngStream.sample, hm]
  · intro hm
    refine ⟨?_, ?_, rfl⟩ <;> simp [RngStream.sample, not_lt.mpr hm]

/-- Witness for C8 at `m = 2, sd = 1, size = 4` (positive mean) and
`m = -1` (non-positive mean). -/
theorem lognormal_param_spec_witness :
    RngStream.sample id id "lognormal" 2 1 4
      = .ok (.lognormalV (id ((2 : ℚ) ^ 2 / id ((1 : ℚ) ^ 2 + 2 ^ 2)))
                         (id (id ((1 : ℚ) ^ 2 / 2 ^ 2 + 1))) 4) ∧
    RngStream.sample id id "lognormal" (-1) 1 4 = .ok (.zerosV 4) :=
  ⟨((lognormal_param_spec id id 2 1 4).1 (by norm_num)).1,
   ((lognormal_param_spec id id (-1) 1 4).2 (by norm_num)).1⟩
